import Mathlib

set_option maxRecDepth 10000
set_option maxHeartbeats 1600000

/-!
# Verification of the paw-diary Activity subsystem

Shallow embedding of the Rust sources under `src-tauri/src`, translated
definition by definition:

* `src/database/activity_data.rs` — the typed payload codec
  (`ActivityData`, `from_legacy_json`, `to_frontend_blocks`,
  `should_update_pet_profile`, `extract_weight_kg`, `convert_weight_to_kg`);
* `src/validation/activity.rs` — `validate_activity_create_request`;
* `src/errors/activity.rs` — `ActivityError`;
* `src/database/activities.rs` — `create_activity`, `get_activities`;
* `src/database/fts.rs` — `fts_search_activities` (limit handling),
  `sanitize_fts_query`, `verify_fts_integrity`, `repair_fts_index`;
* `src/commands/activities.rs` — the `create_activity` command.

Modelling conventions: Rust `f32`/`f64` become `ℚ` (exact rationals, no NaN
or rounding; the constants in the unit table are decimal and hence exact);
`i64`/`i32` become `ℤ`; `chrono::DateTime<Utc>` becomes `ℤ` (seconds since
an epoch); `serde_json::Value` becomes the `Json` inductive below, with
objects as association lists (serde's map is key-ordered, so lookups are
key-based and order never matters to the code being modelled); SQL tables
become Lean lists of row structures, and each database operation becomes a
pure state transformer.
-/

/-- `serde_json::Value`, with objects as association lists.  `num` carries a
rational: JSON numbers in the modelled code are only ever inspected through
`as_f64` or re-emitted, so one exact numeric type is faithful. -/
inductive Json where
  | null : Json
  | bool (b : Bool) : Json
  | num (q : ℚ) : Json
  | str (s : String) : Json
  | arr (elts : List Json) : Json
  | obj (fields : List (String × Json)) : Json
  deriving Repr

/-- Key lookup in a JSON object body: `serde_json::Map::get`. -/
def jGet (fields : List (String × Json)) (key : String) : Option Json :=
  match fields with
  | [] => none
  | (k, v) :: rest => if k = key then some v else jGet rest key

/-- `Value::as_object`. -/
def Json.asObj : Json → Option (List (String × Json))
  | .obj fields => some fields
  | _ => none

/-- `Value::as_f64`: succeeds on any JSON number. -/
def Json.asNum : Json → Option ℚ
  | .num q => some q
  | _ => none

/-- `Value::as_str`. -/
def Json.asStr : Json → Option String
  | .str s => some s
  | _ => none

/-- `ActivityData` from `src/database/activity_data.rs`.  Field-for-field
translation of the Rust enum; `f32` fields are `ℚ`, `i32` is `ℤ`, and the
`chrono::DateTime<Utc>` field `next_due_date` is kept as its RFC 3339
string form. -/
inductive ActivityData where
  | Weight (value : ℚ) (unit : String) (measurement_type : String)
      (notes : Option String)
  | Height (value : ℚ) (unit : String) (measurement_type : String)
      (notes : Option String)
  | Feeding (portion_type : String) (amount : ℚ) (unit : String)
      (brand : Option String) (notes : Option String)
  | WaterIntake (amount : ℚ) (unit : String) (source : Option String)
      (notes : Option String)
  | Vaccination (vaccine_name : String) (vet_name : Option String)
      (next_due_date : Option String) (batch_number : Option String)
      (notes : Option String)
  | CheckUp (diagnosis : Option String) (temperature : Option ℚ)
      (heart_rate : Option ℤ) (notes : Option String)
  | Custom (value : Json) : ActivityData
  deriving Repr

namespace SerdeTyped

/-- Deserialize an optional string field of a tagged variant: absent or
`null` gives `none`, a string gives `some`, anything else fails. -/
def optStrField (fields : List (String × Json)) (key : String) :
    Option (Option String) :=
  match jGet fields key with
  | none => some none
  | some .null => some none
  | some (.str s) => some (some s)
  | some _ => none

/-- Deserialize a required string field. -/
def reqStrField (fields : List (String × Json)) (key : String) :
    Option String :=
  (jGet fields key).bind Json.asStr

/-- Deserialize a required `f32` field: any JSON number. -/
def reqNumField (fields : List (String × Json)) (key : String) : Option ℚ :=
  (jGet fields key).bind Json.asNum

/-- Deserialize an optional `f32` field. -/
def optNumField (fields : List (String × Json)) (key : String) :
    Option (Option ℚ) :=
  match jGet fields key with
  | none => some none
  | some .null => some none
  | some (.num q) => some (some q)
  | some _ => none

/-- Deserialize an optional `i32` field: the number must be integral. -/
def optIntField (fields : List (String × Json)) (key : String) :
    Option (Option ℤ) :=
  match jGet fields key with
  | none => some none
  | some .null => some none
  | some (.num q) => if q.den = 1 then some (some q.num) else none
  | some _ => none

/-- Deserialize the `data` payload of one tagged variant, by variant name.
Unknown keys inside `data` are ignored, as serde does without
`deny_unknown_fields`.  The `chrono` RFC 3339 parse for `next_due_date` is
abstracted to accepting any string. -/
def parseContent (tag : String) (content : Json) : Option ActivityData :=
  match tag, content with
  | "Weight", .obj f => do
      let value ← reqNumField f "value"
      let unit ← reqStrField f "unit"
      let mt ← reqStrField f "measurement_type"
      let notes ← optStrField f "notes"
      pure (.Weight value unit mt notes)
  | "Height", .obj f => do
      let value ← reqNumField f "value"
      let unit ← reqStrField f "unit"
      let mt ← reqStrField f "measurement_type"
      let notes ← optStrField f "notes"
      pure (.Height value unit mt notes)
  | "Feeding", .obj f => do
      let pt ← reqStrField f "portion_type"
      let amount ← reqNumField f "amount"
      let unit ← reqStrField f "unit"
      let brand ← optStrField f "brand"
      let notes ← optStrField f "notes"
      pure (.Feeding pt amount unit brand notes)
  | "WaterIntake", .obj f => do
      let amount ← reqNumField f "amount"
      let unit ← reqStrField f "unit"
      let source ← optStrField f "source"
      let notes ← optStrField f "notes"
      pure (.WaterIntake amount unit source notes)
  | "Vaccination", .obj f => do
      let vn ← reqStrField f "vaccine_name"
      let vet ← optStrField f "vet_name"
      let due ← optStrField f "next_due_date"
      let batch ← optStrField f "batch_number"
      let notes ← optStrField f "notes"
      pure (.Vaccination vn vet due batch notes)
  | "CheckUp", .obj f => do
      let diag ← optStrField f "diagnosis"
      let temp ← optNumField f "temperature"
      let hr ← optIntField f "heart_rate"
      let notes ← optStrField f "notes"
      pure (.CheckUp diag temp hr notes)
  | "Custom", v => some (.Custom v)
  | _, _ => none

end SerdeTyped

/-- `serde_json::from_value::<ActivityData>` for the adjacently tagged
representation `#[serde(tag = "type", content = "data")]`: the value must
be a map holding a `"type"` string naming a variant and a `"data"` payload
(unknown outer keys ignored; the rarely-used sequence encoding is not
modelled). -/
def typedParse (v : Json) : Option ActivityData :=
  match v with
  | .obj fields => do
      let tagJson ← jGet fields "type"
      let tag ← tagJson.asStr
      let content ← jGet fields "data"
      SerdeTyped.parseContent tag content
  | _ => none

/-- Pattern 1 of `from_legacy_json`: a `weight` measurement block. -/
def tryWeightPattern (fields : List (String × Json)) : Option ActivityData := do
  let wb ← (jGet fields "weight").bind Json.asObj
  let value ← (jGet wb "value").bind Json.asNum
  let unit ← (jGet wb "unit").bind Json.asStr
  let mt := ((jGet wb "measurementType").bind Json.asStr).getD "weight"
  let notes := (jGet fields "notes").bind Json.asStr
  pure (.Weight value unit mt notes)

/-- Pattern 2 of `from_legacy_json`: a `height` measurement block. -/
def tryHeightPattern (fields : List (String × Json)) : Option ActivityData := do
  let hb ← (jGet fields "height").bind Json.asObj
  let value ← (jGet hb "value").bind Json.asNum
  let unit ← (jGet hb "unit").bind Json.asStr
  let mt := ((jGet hb "measurementType").bind Json.asStr).getD "height"
  let notes := (jGet fields "notes").bind Json.asStr
  pure (.Height value unit mt notes)

/-- Pattern 3 of `from_legacy_json`: a `portion` block. -/
def tryFeedingPattern (fields : List (String × Json)) : Option ActivityData := do
  let pb ← (jGet fields "portion").bind Json.asObj
  let amount ← (jGet pb "amount").bind Json.asNum
  let unit ← (jGet pb "unit").bind Json.asStr
  let pt ← (jGet pb "portionType").bind Json.asStr
  let brand := (jGet pb "brand").bind Json.asStr
  let notes := (jGet fields "notes").bind Json.asStr
  pure (.Feeding pt amount unit brand notes)

/-- Pattern 4 of `from_legacy_json`: a water-specific `portion` block whose
`portionType` is `bowl`, `bottle` or `fountain`. -/
def tryWaterPattern (fields : List (String × Json)) : Option ActivityData := do
  let pb ← (jGet fields "portion").bind Json.asObj
  let pt ← (jGet pb "portionType").bind Json.asStr
  if pt = "bowl" ∨ pt = "bottle" ∨ pt = "fountain" then
    let amount ← (jGet pb "amount").bind Json.asNum
    let unit ← (jGet pb "unit").bind Json.asStr
    pure (.WaterIntake amount unit (some pt) ((jGet fields "notes").bind Json.asStr))
  else
    none

/-- `ActivityData::from_legacy_json`: try the typed (tagged) parse, then the
four legacy block patterns in order, then fall back to `Custom`. -/
def ActivityData.from_legacy_json (value : Json) : ActivityData :=
  match typedParse value with
  | some typed => typed
  | none =>
    match value with
    | .obj fields =>
      match tryWeightPattern fields with
      | some d => d
      | none =>
        match tryHeightPattern fields with
        | some d => d
        | none =>
          match tryFeedingPattern fields with
          | some d => d
          | none =>
            match tryWaterPattern fields with
            | some d => d
            | none => .Custom value
    | _ => .Custom value

/-- Append for `blocks["notes"] = json!(notes)` on an optional value. -/
def withNotes (fields : List (String × Json)) (notes : Option String) :
    List (String × Json) :=
  match notes with
  | none => fields
  | some n => fields ++ [("notes", Json.str n)]

/-- Optional key-value entry, used for the conditional inserts in
`to_frontend_blocks`. -/
def optEntry (key : String) (v : Option String) : List (String × Json) :=
  match v with
  | none => []
  | some s => [(key, Json.str s)]

/-- `ActivityData::to_frontend_blocks`.  serde's map is key-ordered, so the
emission order of entries is immaterial to the modelled code (all reads are
key lookups); entries are listed in the order the source inserts them. -/
def ActivityData.to_frontend_blocks : ActivityData → Json
  | .Weight value unit mt notes =>
      .obj (withNotes
        [("weight", .obj [("value", .num value), ("unit", .str unit),
            ("measurementType", .str mt)])] notes)
  | .Height value unit mt notes =>
      .obj (withNotes
        [("height", .obj [("value", .num value), ("unit", .str unit),
            ("measurementType", .str mt)])] notes)
  | .Feeding pt amount unit brand notes =>
      .obj (withNotes
        [("portion", .obj ([("amount", .num amount), ("unit", .str unit),
            ("portionType", .str pt)] ++ optEntry "brand" brand))] notes)
  | .WaterIntake amount unit source notes =>
      .obj (withNotes
        [("portion", .obj ([("amount", .num amount), ("unit", .str unit)] ++
            optEntry "portionType" source))] notes)
  | .Vaccination vn vet due batch notes =>
      .obj (withNotes
        [("vaccination", .obj ([("vaccine_name", .str vn)] ++
            optEntry "vet_name" vet ++ optEntry "next_due_date" due ++
            optEntry "batch_number" batch))] notes)
  | .CheckUp diag temp hr notes =>
      .obj (withNotes
        [("checkup", .obj (optEntry "diagnosis" diag ++
            (match temp with
             | none => []
             | some t => [("temperature", Json.num t)]) ++
            (match hr with
             | none => []
             | some h => [("heart_rate", Json.num (h : ℚ))])))] notes)
  | .Custom v => v

/-- `ActivityData::should_update_pet_profile`. -/
def ActivityData.should_update_pet_profile : ActivityData → Bool
  | .Weight _ _ _ _ => true
  | .Height _ _ _ _ => true
  | _ => false

/-- `str::to_lowercase`, modelled per character (ASCII case mapping; the
unit strings the code compares against are ASCII). -/
def rustToLowercase (s : String) : String :=
  String.mk (s.data.map Char.toLower)

/-- `convert_weight_to_kg` from `src/database/activity_data.rs`; the Rust
`match` on the lowercased unit (with the or-pattern `"lbs" | "lb"`) is
written as the equivalent chain of string comparisons. -/
def convert_weight_to_kg (value : ℚ) (unit : String) : ℚ :=
  let u := rustToLowercase unit
  if u = "kg" then value
  else if u = "g" then value / 1000
  else if u = "lbs" ∨ u = "lb" then value / (2205 / 1000)
  else if u = "oz" then value / (35274 / 1000)
  else value

/-- `ActivityData::extract_weight_kg`. -/
def ActivityData.extract_weight_kg : ActivityData → Option ℚ
  | .Weight value unit _ _ => some (convert_weight_to_kg value unit)
  | _ => none

example :
    ActivityData.from_legacy_json
      (.obj [("weight", .obj [("value", .num 5.2), ("unit", .str "kg"),
          ("measurementType", .str "weight")]), ("notes", .str "Healthy weight")]) =
    .Weight 5.2 "kg" "weight" (some "Healthy weight") := by rfl

example :
    ActivityData.from_legacy_json
      (.obj [("some_custom_field", .str "value"), ("another_field", .num 123)]) =
    .Custom (.obj [("some_custom_field", .str "value"), ("another_field", .num 123)]) := by
  rfl

example : convert_weight_to_kg 5000 "g" = 5 := by
  norm_num [convert_weight_to_kg, show rustToLowercase "g" = "g" from by decide,
    show ("g" : String) ≠ "kg" from by decide]

example : convert_weight_to_kg 11.025 "lbs" = 5 := by
  norm_num [convert_weight_to_kg,
    show rustToLowercase "lbs" = "lbs" from by decide,
    show ("lbs" : String) ≠ "kg" from by decide,
    show ("lbs" : String) ≠ "g" from by decide]

example :
    (ActivityData.Weight 5000 "g" "weight" none).extract_weight_kg = some 5 := by
  norm_num [ActivityData.extract_weight_kg, convert_weight_to_kg,
    show rustToLowercase "g" = "g" from by decide,
    show ("g" : String) ≠ "kg" from by decide]

/-- `ActivityError` from `src/errors/activity.rs`. -/
inductive ActivityError where
  | NotFound (id : ℤ)
  | InvalidType (activity_type : String)
  | InvalidData (message : String)
  | Validation (field : String) (message : String)
  | PetMismatch (pet_id : ℤ) (activity_id : ℤ)
  | DateOutOfRange (message : String)
  deriving Repr, DecidableEq

/-- Whether an `ActivityError` is the `Validation` kind. -/
def ActivityError.isValidationKind : ActivityError → Bool
  | .Validation _ _ => true
  | _ => false

/-- Whether an `ActivityError` is the `DateOutOfRange` kind. -/
def ActivityError.isDateOutOfRangeKind : ActivityError → Bool
  | .DateOutOfRange _ => true
  | _ => false

/-- `ActivityCategory` from `src/database/models.rs`. -/
inductive ActivityCategory where
  | Health | Growth | Diet | Lifestyle | Expense
  deriving Repr, DecidableEq

/-- `ActivityCategory::to_string` (its `Display` impl). -/
def ActivityCategory.toDbString : ActivityCategory → String
  | .Health => "health"
  | .Growth => "growth"
  | .Diet => "diet"
  | .Lifestyle => "lifestyle"
  | .Expense => "expense"

/-- `str::trim` on a character list: drop whitespace from both ends. -/
def listTrim (l : List Char) : List Char :=
  ((l.dropWhile Char.isWhitespace).reverse.dropWhile Char.isWhitespace).reverse

/-- `str::trim`. -/
def rustTrim (s : String) : String := String.mk (listTrim s.data)

/-- Rust `String::len`: the UTF-8 byte length, as the sum of the UTF-8
sizes of the characters. -/
def rustStrLen (s : String) : ℕ := (s.data.map Char.utf8Size).sum

/-- Hex digit for JSON control-character escapes. -/
def hexDigitChar (n : ℕ) : Char :=
  if n < 10 then Char.ofNat (n + 48) else Char.ofNat (n - 10 + 97)

/-- One character of a JSON string body, escaped as `serde_json` does:
quote and backslash get a backslash escape, the named control characters
use their short forms, other control characters use `\u00XX`. -/
def jsonEscapeChar (c : Char) : List Char :=
  if c = '"' then ['\\', '"']
  else if c = '\\' then ['\\', '\\']
  else if c = Char.ofNat 8 then ['\\', 'b']
  else if c = Char.ofNat 9 then ['\\', 't']
  else if c = Char.ofNat 10 then ['\\', 'n']
  else if c = Char.ofNat 12 then ['\\', 'f']
  else if c = Char.ofNat 13 then ['\\', 'r']
  else if c.toNat < 32 then
    ['\\', 'u', '0', '0', hexDigitChar (c.toNat / 16), hexDigitChar (c.toNat % 16)]
  else [c]

/-- A JSON string literal as `serde_json` prints it. -/
def jsonQuote (s : String) : String :=
  String.mk ('"' :: (s.data.map jsonEscapeChar).flatten ++ ['"'])

/-- JSON text for a number.  `serde_json` prints floats in shortest
round-trip decimal form; that formatting is abstracted here (integral
values as `<n>.0`, others via their reduced fraction) — no claim in this
development inspects the serialized form of a number, only byte lengths of
string-only payloads. -/
def ratToJsonString (q : ℚ) : String :=
  if q.den = 1 then toString q.num ++ ".0"
  else toString q.num ++ "e" ++ toString q.den

mutual

/-- `serde_json::Value::to_string` (compact form, no spaces). -/
def jsonToString : Json → String
  | .null => "null"
  | .bool true => "true"
  | .bool false => "false"
  | .num q => ratToJsonString q
  | .str s => jsonQuote s
  | .arr elts => "[" ++ jsonListToString elts ++ "]"
  | .obj fields => "\x7b" ++ jsonObjToString fields ++ "\x7d"

/-- Comma-joined serialization of array elements. -/
def jsonListToString : List Json → String
  | [] => ""
  | [j] => jsonToString j
  | j :: rest => jsonToString j ++ "," ++ jsonListToString rest

/-- Comma-joined serialization of object entries. -/
def jsonObjToString : List (String × Json) → String
  | [] => ""
  | [(k, v)] => jsonQuote k ++ ":" ++ jsonToString v
  | (k, v) :: rest => jsonQuote k ++ ":" ++ jsonToString v ++ "," ++ jsonObjToString rest

end

/-- `ActivityCreateRequest`, with the field set that
`validate_activity_create_request` and `PetDatabase::create_activity`
operate on.  `activity_date` and the clock are seconds since an epoch. -/
structure ActivityCreateRequest where
  pet_id : ℤ
  category : ActivityCategory
  subcategory : String
  title : String
  description : Option String
  activity_date : ℤ
  activity_data : Option Json
  cost : Option ℚ
  currency : Option String
  location : Option String
  mood_rating : Option ℤ
  deriving Repr

/-- Seconds in one day, for `chrono::Duration::days`. -/
def secondsPerDay : ℤ := 86400

/-- An optional string field that is present and longer than `n` bytes. -/
def optTooLong (v : Option String) (n : ℕ) : Bool :=
  match v with
  | some s => n < rustStrLen s
  | none => false

/-- An optional string field that is present but trims to empty. -/
def optTrimEmpty (v : Option String) : Bool :=
  match v with
  | some s => rustTrim s = ""
  | none => false

/-- `validate_activity_create_request` from `src/validation/activity.rs`,
with `Utc::now()` passed in as `now`.  The checks run in source order and
the first failure is returned. -/
def validate_activity_create_request (now : ℤ)
    (r : ActivityCreateRequest) : Except ActivityError Unit :=
  if r.pet_id ≤ 0 then
    .error (.Validation "pet_id" "Pet ID must be positive")
  else if rustTrim r.title = "" then
    .error (.Validation "title" "Title cannot be empty")
  else if 255 < rustStrLen r.title then
    .error (.Validation "title" "Title must be 255 characters or less")
  else if rustTrim r.subcategory = "" then
    .error (.Validation "subcategory" "Subcategory cannot be empty")
  else if 100 < rustStrLen r.subcategory then
    .error (.Validation "subcategory" "Subcategory must be 100 characters or less")
  else if optTooLong r.description 2000 then
    .error (.Validation "description" "Description must be 2000 characters or less")
  else if now + 365 * secondsPerDay < r.activity_date then
    .error (.DateOutOfRange "Activity date cannot be more than 1 year in the future")
  else if r.activity_date < now - 3650 * secondsPerDay then
    .error (.DateOutOfRange "Activity date cannot be more than 10 years in the past")
  else if (match r.cost with | some c => c < 0 | none => false : Bool) then
    .error (.Validation "cost" "Cost cannot be negative")
  else if (match r.cost with | some c => (999999.99 : ℚ) < c | none => false : Bool) then
    .error (.Validation "cost" "Cost cannot exceed 999,999.99")
  else if optTrimEmpty r.currency then
    .error (.Validation "currency" "Currency cannot be empty if specified")
  else if optTooLong r.currency 10 then
    .error (.Validation "currency" "Currency code must be 10 characters or less")
  else if optTooLong r.location 255 then
    .error (.Validation "location" "Location must be 255 characters or less")
  else if (match r.mood_rating with
           | some m => ¬(1 ≤ m ∧ m ≤ 5)
           | none => false : Bool) then
    .error (.Validation "mood_rating" "Mood rating must be between 1 and 5")
  else if (match r.activity_data with
           | some d => 10000 < rustStrLen (jsonToString d)
           | none => false : Bool) then
    .error (.Validation "activity_data" "Activity data must be less than 10KB")
  else
    .ok ()

/-- `char::is_alphanumeric`/`is_whitespace` restricted to the ASCII range
(the Unicode tables behind the Rust predicates are abstracted; every
character any claim exercises is ASCII), plus the literal symbol set of
`sanitize_fts_query`. -/
def ftsAllowedChar (c : Char) : Bool :=
  c.isAlphanum || c.isWhitespace || "-_*\"".data.contains c

/-- `PetDatabase::sanitize_fts_query` from `src/database/fts.rs`. -/
def sanitize_fts_query (query : String) : String :=
  let cleaned := query.data.filter ftsAllowedChar
  if cleaned.contains ' ' && !cleaned.contains '"' then
    String.mk ('"' :: listTrim cleaned ++ ['"'])
  else
    String.mk (listTrim cleaned)

example : sanitize_fts_query "cat food" = "\"cat food\"" := by decide
example : sanitize_fts_query "cat; DROP--" = "\"cat DROP--\"" := by decide

/-- A row of the `activities` table, with the columns the modelled
operations read or write. -/
structure ActivityRow where
  id : ℤ
  pet_id : ℤ
  category : String
  subcategory : String
  title : String
  description : Option String
  activity_date : ℤ
  activity_data : Option String
  cost : Option ℚ
  currency : Option String
  location : Option String
  mood_rating : Option ℤ
  created_at : ℤ
  updated_at : ℤ
  deriving Repr, DecidableEq

/-- A row of the `activities_fts` virtual table.  The source names
different column subsets at different insert sites (`category` in
`activities.rs`, `location` in `fts.rs`); unnamed columns are NULL, so all
text columns are optional here.  `rowid` keys the row to its activity. -/
structure FtsRow where
  rowid : ℤ
  title : String
  description : Option String
  category : Option String
  subcategory : Option String
  location : Option String
  deriving Repr, DecidableEq

/-- The owning pet, as the Pet collaborator exposes it to the activity
subsystem: only `id` (ownership checks) and `weight_kg` (the documented
side-effect target) are ever read or written by the modelled code; the
remaining profile columns are omitted. -/
structure Pet where
  id : ℤ
  name : String
  weight_kg : Option ℚ
  deriving Repr, DecidableEq

/-- The storage state: the three tables the activity subsystem touches,
plus SQLite's rowid allocator (`last_insert_rowid`). -/
structure DbState where
  pets : List Pet
  activities : List ActivityRow
  activities_fts : List FtsRow
  next_rowid : ℤ
  deriving Repr

/-- `ActivityFilters` from `src/database/models.rs`
(`has_attachments` omitted: no modelled operation reads it). -/
structure ActivityFilters where
  categories : Option (List ActivityCategory)
  date_from : Option ℤ
  date_to : Option ℤ
  min_cost : Option ℚ
  max_cost : Option ℚ
  deriving Repr

/-- `ActivitySearchResult` from `src/database/models.rs`. -/
structure ActivitySearchResult where
  activities : List ActivityRow
  total_count : ℤ
  has_more : Bool
  deriving Repr, DecidableEq

/-- One insertion step of the date-descending sort. -/
def insertByDateDesc (a : ActivityRow) : List ActivityRow → List ActivityRow
  | [] => [a]
  | b :: rest =>
      if b.activity_date ≤ a.activity_date then a :: b :: rest
      else b :: insertByDateDesc a rest

/-- `ORDER BY activity_date DESC` (insertion sort; SQLite's ordering for
equal keys is unspecified, and no modelled property depends on tie
order). -/
def sortByDateDesc : List ActivityRow → List ActivityRow
  | [] => []
  | a :: rest => insertByDateDesc a (sortByDateDesc rest)

theorem length_insertByDateDesc (a : ActivityRow) (l : List ActivityRow) :
    (insertByDateDesc a l).length = l.length + 1 := by
  induction l with
  | nil => rfl
  | cons b rest ih =>
      unfold insertByDateDesc
      split
      · rfl
      · simp [List.length_cons, ih]

theorem length_sortByDateDesc (l : List ActivityRow) :
    (sortByDateDesc l).length = l.length := by
  induction l with
  | nil => rfl
  | cons a rest ih =>
      unfold sortByDateDesc
      rw [length_insertByDateDesc, ih, List.length_cons]

/-- `PetDatabase::get_activities` from `src/database/activities.rs`.  The
source first assembles a `base_query` string and bind list carrying the
category, date-range, and cost filters, then abandons them and executes a
separately built `final_query` that filters by pet id only, orders by
`activity_date DESC`, and applies `LIMIT limit.unwrap_or(50) OFFSET
offset.unwrap_or(0)` (SQLite: a negative LIMIT means unlimited).
`total_count` is the window `COUNT(*) OVER()` read off the first returned
row — `0` when the page is empty; `has_more` is computed only when the
caller supplied an offset. -/
def get_activities (s : DbState) (pet_id : Option ℤ)
    (filters : Option ActivityFilters) (limit offset : Option ℤ) :
    ActivitySearchResult :=
  let matched := match pet_id with
    | some pid => s.activities.filter (fun a => a.pet_id == pid)
    | none => s.activities
  let sorted := sortByDateDesc matched
  let limit_val := limit.getD 50
  let offset_val := offset.getD 0
  let afterOffset := sorted.drop offset_val.toNat
  let page := if limit_val < 0 then afterOffset else afterOffset.take limit_val.toNat
  let total_count : ℤ := if page.isEmpty then 0 else matched.length
  let has_more := match offset with
    | some o => decide (o + page.length < total_count)
    | none => false
  ⟨page, total_count, has_more⟩

/-- The effective row limit of `PetDatabase::fts_search_activities`:
`limit.unwrap_or(50).min(1000)`. -/
def ftsSearchEffectiveLimit (limit : Option ℤ) : ℤ :=
  min (limit.getD 50) 1000

/-- Orphaned index rows: `rowid NOT IN (SELECT id FROM activities)`. -/
def ftsOrphanCount (s : DbState) : ℕ :=
  (s.activities_fts.filter
    (fun f => !s.activities.any (fun a => a.id == f.rowid))).length

/-- Activities missing from the index:
`id NOT IN (SELECT rowid FROM activities_fts)`. -/
def ftsMissingCount (s : DbState) : ℕ :=
  (s.activities.filter
    (fun a => !s.activities_fts.any (fun f => f.rowid == a.id))).length

/-- `FtsIntegrityResult` from `src/database/fts.rs`. -/
structure FtsIntegrityResult where
  is_valid : Bool
  issues : List String
  activities_count : ℤ
  fts_count : ℤ
  duration_ms : ℕ
  deriving Repr, DecidableEq

/-- `PetDatabase::verify_fts_integrity`: counts both tables, enumerates
orphaned and missing rows, and reports; it executes only SELECTs, so the
state is returned unchanged.  (The leading `fts_accessible` probe models a
storage-level failure and is outside this embedding.) -/
def verify_fts_integrity (s : DbState) : DbState × FtsIntegrityResult :=
  let ac := s.activities.length
  let fc := s.activities_fts.length
  let issues₀ : List String :=
    if ac ≠ fc then
      ["Count mismatch: " ++ toString ac ++ " activities vs " ++
        toString fc ++ " FTS entries"]
    else []
  let orphans := ftsOrphanCount s
  let issues₁ := issues₀ ++
    (if 0 < orphans then
      ["Found " ++ toString orphans ++ " orphaned FTS entries"] else [])
  let missing := ftsMissingCount s
  let issues := issues₁ ++
    (if 0 < missing then
      ["Found " ++ toString missing ++ " activities missing from FTS index"]
     else [])
  (s, ⟨issues.isEmpty, issues, (ac : ℤ), (fc : ℤ), 0⟩)

/-- `FtsRepairResult` from `src/database/fts.rs`. -/
structure FtsRepairResult where
  repaired_entries : ℤ
  removed_orphans : ℤ
  added_missing : ℤ
  duration_ms : ℕ
  deriving Repr, DecidableEq

/-- The index row `repair_fts_index` re-derives from an activity row
(columns rowid, title, description, subcategory, location). -/
def activityToFtsRow (a : ActivityRow) : FtsRow :=
  ⟨a.id, a.title, a.description, none, some a.subcategory, a.location⟩

/-- `PetDatabase::repair_fts_index`: verify first and return zeros when
already consistent; otherwise, in one transaction, delete orphaned index
rows, insert rows for activities absent from the (post-delete) index, and
commit.  The success path is modelled; a storage failure rolls the
transaction back, leaving `s` unchanged. -/
def repair_fts_index (s : DbState) : DbState × FtsRepairResult :=
  let integrity := (verify_fts_integrity s).2
  if integrity.is_valid then
    (s, ⟨0, 0, 0, 0⟩)
  else
    let keep := s.activities_fts.filter
      (fun f => s.activities.any (fun a => a.id == f.rowid))
    let removed : ℤ := (s.activities_fts.length : ℤ) - keep.length
    let missing := s.activities.filter
      (fun a => !keep.any (fun f => f.rowid == a.id))
    let added : ℤ := missing.length
    ({ s with activities_fts := keep ++ missing.map activityToFtsRow },
      ⟨removed + added, removed, added, 0⟩)

/-- `PetDatabase::create_activity` from `src/database/activities.rs`: a
plain INSERT of the request's columns (payload serialized to text), then a
best-effort FTS insert of (rowid, title, description, category,
subcategory) whose error is discarded, then a read-back of the new row.
No transaction is opened and no other table is touched. -/
def PetDatabase.create_activity (s : DbState) (now : ℤ)
    (r : ActivityCreateRequest) : DbState × ActivityRow :=
  let id := s.next_rowid
  let row : ActivityRow :=
    ⟨id, r.pet_id, r.category.toDbString, r.subcategory, r.title,
      r.description, r.activity_date, r.activity_data.map jsonToString,
      r.cost, r.currency, r.location, r.mood_rating, now, now⟩
  let ftsRow : FtsRow :=
    ⟨id, r.title, r.description, some r.category.toDbString,
      some r.subcategory, none⟩
  ({ s with activities := s.activities ++ [row],
            activities_fts := s.activities_fts ++ [ftsRow],
            next_rowid := id + 1 }, row)

/-- The `create_activity` command from `src/commands/activities.rs`: check
the owning pet exists (a missing pet becomes a `Validation("pet_id", …)`
error; the source interpolates the lookup error into the message, which is
abstracted to the fixed prefix), then delegate to
`PetDatabase::create_activity`. -/
def create_activity_command (s : DbState) (now : ℤ)
    (r : ActivityCreateRequest) : DbState × Except ActivityError ActivityRow :=
  match s.pets.find? (fun p => p.id == r.pet_id) with
  | none => (s, .error (.Validation "pet_id" "Pet not found"))
  | some _ =>
      let (s', row) := PetDatabase.create_activity s now r
      (s', .ok row)

/-- The stored weight of pet `pid` in state `s`. -/
def petWeightKg (s : DbState) (pid : ℤ) : Option ℚ :=
  (s.pets.find? (fun p => p.id == pid)).bind Pet.weight_kg

/-- A value matches a known payload shape: the typed (tagged) parse
succeeds, or one of the four legacy block patterns applies. -/
def matchesKnownShape (v : Json) : Bool :=
  (typedParse v).isSome ||
  (match v with
   | .obj fields =>
       (tryWeightPattern fields).isSome || (tryHeightPattern fields).isSome ||
       (tryFeedingPattern fields).isSome || (tryWaterPattern fields).isSome
   | _ => false)

/-- C5: weight extraction converts to kilograms through the unit table —
`kg` is identity, `g` divides by 1000, `lb`/`lbs` divides by 2.205, `oz`
divides by 35.274, any unrecognized unit passes the value through
unconverted — and extracting from 5000 g gives 5 kg within 1e-3, from
11.025 lbs gives 5 kg within 1e-2. -/
theorem c5_weight_unit_conversion :
    (∀ v : ℚ, convert_weight_to_kg v "kg" = v) ∧
    (∀ v : ℚ, convert_weight_to_kg v "g" = v / 1000) ∧
    (∀ v : ℚ, convert_weight_to_kg v "lb" = v / 2.205) ∧
    (∀ v : ℚ, convert_weight_to_kg v "lbs" = v / 2.205) ∧
    (∀ v : ℚ, convert_weight_to_kg v "oz" = v / 35.274) ∧
    (∀ (v : ℚ) (u : String),
      rustToLowercase u ∉ (["kg", "g", "lbs", "lb", "oz"] : List String) →
      convert_weight_to_kg v u = v) ∧
    |((ActivityData.Weight 5000 "g" "weight" none).extract_weight_kg.getD 0) - 5|
      ≤ 1 / 1000 ∧
    |((ActivityData.Weight 11.025 "lbs" "weight" none).extract_weight_kg.getD 0) - 5|
      ≤ 1 / 100 := by
  refine ⟨fun v => ?_, fun v => ?_, fun v => ?_, fun v => ?_, fun v => ?_,
    fun v u h => ?_, ?_, ?_⟩
  · norm_num [convert_weight_to_kg, show rustToLowercase "kg" = "kg" from by decide]
  · norm_num [convert_weight_to_kg, show rustToLowercase "g" = "g" from by decide,
      show ("g" : String) ≠ "kg" from by decide]
  · norm_num [convert_weight_to_kg, show rustToLowercase "lb" = "lb" from by decide,
      show ("lb" : String) ≠ "kg" from by decide,
      show ("lb" : String) ≠ "g" from by decide]
  · norm_num [convert_weight_to_kg, show rustToLowercase "lbs" = "lbs" from by decide,
      show ("lbs" : String) ≠ "kg" from by decide,
      show ("lbs" : String) ≠ "g" from by decide]
  · norm_num [convert_weight_to_kg, show rustToLowercase "oz" = "oz" from by decide,
      show ("oz" : String) ≠ "kg" from by decide,
      show ("oz" : String) ≠ "g" from by decide,
      show ("oz" : String) ≠ "lbs" from by decide,
      show ("oz" : String) ≠ "lb" from by decide]
  · have h1 : rustToLowercase u ≠ "kg" := fun e => h (by simp [e])
    have h2 : rustToLowercase u ≠ "g" := fun e => h (by simp [e])
    have h3 : rustToLowercase u ≠ "lbs" := fun e => h (by simp [e])
    have h4 : rustToLowercase u ≠ "lb" := fun e => h (by simp [e])
    have h5 : rustToLowercase u ≠ "oz" := fun e => h (by simp [e])
    simp [convert_weight_to_kg, h1, h2, h3, h4, h5]
  · norm_num [ActivityData.extract_weight_kg, convert_weight_to_kg,
      show rustToLowercase "g" = "g" from by decide,
      show ("g" : String) ≠ "kg" from by decide]
  · norm_num [ActivityData.extract_weight_kg, convert_weight_to_kg,
      show rustToLowercase "lbs" = "lbs" from by decide,
      show ("lbs" : String) ≠ "kg" from by decide,
      show ("lbs" : String) ≠ "g" from by decide]

/-- Witness for C5 at concrete inputs: the unrecognized unit `stone`
passes through unconverted. -/
theorem c5_weight_unit_conversion_witness : convert_weight_to_kg 7 "stone" = 7 :=
  c5_weight_unit_conversion.2.2.2.2.2.1 7 "stone" (by decide)

/-- An `Option` whose `isSome` is `false` is `none`. -/
theorem falseIsSome_eq_none {α : Type} {o : Option α}
    (h : o.isSome = false) : o = none := by
  cases o with
  | none => rfl
  | some a => simp at h

/-- C4: the payload parse is total (it is a function into `ActivityData`)
and any value matching none of the known shape patterns comes back as the
opaque `Custom` fallback holding exactly the original input. -/
theorem c4_unmatched_shapes_fall_back_to_custom (v : Json)
    (h : matchesKnownShape v = false) :
    ActivityData.from_legacy_json v = ActivityData.Custom v := by
  unfold matchesKnownShape at h
  unfold ActivityData.from_legacy_json
  cases v with
  | obj fields =>
      simp only [Bool.or_eq_false_iff] at h
      obtain ⟨h1, ⟨⟨hw, hh⟩, hf⟩, ha⟩ := h
      simp [falseIsSome_eq_none h1, falseIsSome_eq_none hw,
        falseIsSome_eq_none hh, falseIsSome_eq_none hf, falseIsSome_eq_none ha]
  | null => rfl
  | bool b => rfl
  | num q => rfl
  | str s => rfl
  | arr elts => rfl

/-- Witness for C4: the shapeless document from the repository's own test
(`some_custom_field`/`another_field`) is preserved verbatim in `Custom`. -/
theorem c4_unmatched_shapes_fall_back_to_custom_witness :
    ActivityData.from_legacy_json
      (.obj [("some_custom_field", .str "value"), ("another_field", .num 123)]) =
    ActivityData.Custom
      (.obj [("some_custom_field", .str "value"), ("another_field", .num 123)]) :=
  c4_unmatched_shapes_fall_back_to_custom _ (by rfl)

/-- A payload field object carrying both a date key and the
measurement-type keys (value/unit), i.e. satisfying the spec's Time shape
and Measurement shape at once. -/
def timeAndMeasurementDoc : Json :=
  .obj [("weight", .obj [("value", .num 5), ("unit", .str "kg"),
    ("date", .str "2024-01-01")])]

/-- C3 counterexample: the parser has no time variant at all; the field
object carrying both a date key and measurement keys is classified as the
`Weight` measurement variant, not as Time. -/
theorem c3_counterexample :
    ActivityData.from_legacy_json timeAndMeasurementDoc =
      ActivityData.Weight 5 "kg" "weight" none := by rfl

/-- C3 as amended: the actual trial precedence is typed tag → Weight →
Height → Feeding → WaterIntake → Custom, and whenever the weight
measurement pattern applies — even if the block also carries a `date`
key — the field is classified as the `Weight` measurement variant. -/
theorem c3_amended_measurement_precedence
    (fields wb : List (String × Json)) (value : ℚ) (unit : String) (d : Json)
    (htyped : typedParse (Json.obj fields) = none)
    (hwb : jGet fields "weight" = some (.obj wb))
    (hvalue : jGet wb "value" = some (.num value))
    (hunit : jGet wb "unit" = some (.str unit))
    (_hdate : jGet wb "date" = some d) :
    ActivityData.from_legacy_json (Json.obj fields) =
      ActivityData.Weight value unit
        (((jGet wb "measurementType").bind Json.asStr).getD "weight")
        ((jGet fields "notes").bind Json.asStr) := by
  unfold ActivityData.from_legacy_json
  rw [htyped]
  have hp : tryWeightPattern fields =
      some (ActivityData.Weight value unit
        (((jGet wb "measurementType").bind Json.asStr).getD "weight")
        ((jGet fields "notes").bind Json.asStr)) := by
    unfold tryWeightPattern
    rw [hwb]
    simp [Json.asObj, hvalue, hunit, Json.asNum, Json.asStr]
  simp [hp]

/-- Witness for C3 (amended) at a concrete block holding value, unit, a
date, a measurement type and notes. -/
theorem c3_amended_measurement_precedence_witness :
    ActivityData.from_legacy_json
      (.obj [("weight", .obj [("value", .num 4), ("unit", .str "g"),
        ("date", .str "2023-05-05"), ("measurementType", .str "weight")]),
        ("notes", .str "vet visit")]) =
      ActivityData.Weight 4 "g" "weight" (some "vet visit") := by
  have h := c3_amended_measurement_precedence
    [("weight", .obj [("value", .num 4), ("unit", .str "g"),
        ("date", .str "2023-05-05"), ("measurementType", .str "weight")]),
      ("notes", .str "vet visit")]
    [("value", .num 4), ("unit", .str "g"), ("date", .str "2023-05-05"),
      ("measurementType", .str "weight")]
    4 "g" (.str "2023-05-05") rfl rfl rfl rfl rfl
  exact h.trans (by rfl)

/-- A typed (tagged) vaccination document, as the typed serializer writes
it and the typed parse accepts it. -/
def vaccTypedDoc : Json :=
  .obj [("type", .str "Vaccination"),
    ("data", .obj [("vaccine_name", .str "Rabies")])]

/-- C2 counterexample: take the payload produced by a first forward parse
of a typed Vaccination document; re-emitting it with `to_frontend_blocks`
and forward-parsing again yields a `Custom` value, not the original
`Vaccination` — a failure beyond the documented numeric-vs-string
exception. -/
theorem c2_counterexample :
    ActivityData.from_legacy_json vaccTypedDoc =
      ActivityData.Vaccination "Rabies" none none none none ∧
    ActivityData.from_legacy_json
        ((ActivityData.from_legacy_json vaccTypedDoc).to_frontend_blocks) ≠
      ActivityData.from_legacy_json vaccTypedDoc := by
  refine ⟨rfl, ?_⟩
  intro h
  have h2 : ActivityData.Custom
      (.obj [("vaccination", .obj [("vaccine_name", .str "Rabies")])]) =
      ActivityData.Vaccination "Rabies" none none none none := h
  exact ActivityData.noConfusion h2

/-- C2 as amended: the round trip `from_legacy_json ∘ to_frontend_blocks`
is the identity on every payload of the `Weight`, `Height` or `Feeding`
variants, and on every `Custom` payload that a first forward parse
produced from its own value; the remaining variants (`WaterIntake`,
`Vaccination`, `CheckUp`) do not round-trip. -/
theorem c2_amended_roundtrip :
    (∀ (value : ℚ) (unit mt : String) (notes : Option String),
      ActivityData.from_legacy_json
        ((ActivityData.Weight value unit mt notes).to_frontend_blocks) =
        ActivityData.Weight value unit mt notes) ∧
    (∀ (value : ℚ) (unit mt : String) (notes : Option String),
      ActivityData.from_legacy_json
        ((ActivityData.Height value unit mt notes).to_frontend_blocks) =
        ActivityData.Height value unit mt notes) ∧
    (∀ (pt : String) (amount : ℚ) (unit : String) (brand notes : Option String),
      ActivityData.from_legacy_json
        ((ActivityData.Feeding pt amount unit brand notes).to_frontend_blocks) =
        ActivityData.Feeding pt amount unit brand notes) ∧
    (∀ v : Json, ActivityData.from_legacy_json v = ActivityData.Custom v →
      ActivityData.from_legacy_json
        ((ActivityData.Custom v).to_frontend_blocks) = ActivityData.Custom v) := by
  refine ⟨fun value unit mt notes => ?_, fun value unit mt notes => ?_,
    fun pt amount unit brand notes => ?_, fun v h => ?_⟩
  · cases notes <;> rfl
  · cases notes <;> rfl
  · cases brand <;> cases notes <;> rfl
  · simpa [ActivityData.to_frontend_blocks] using h

/-- Witness for C2 (amended): a concrete weight payload and a concrete
shapeless `Custom` payload both round-trip unchanged. -/
theorem c2_amended_roundtrip_witness :
    ActivityData.from_legacy_json
      ((ActivityData.Weight 5.2 "kg" "weight" (some "ok")).to_frontend_blocks) =
      ActivityData.Weight 5.2 "kg" "weight" (some "ok") ∧
    ActivityData.from_legacy_json
      ((ActivityData.Custom (.str "free text")).to_frontend_blocks) =
      ActivityData.Custom (.str "free text") :=
  ⟨c2_amended_roundtrip.1 5.2 "kg" "weight" (some "ok"),
    c2_amended_roundtrip.2.2.2 (.str "free text") rfl⟩

/-- Characters surviving `listTrim` come from the original list. -/
theorem mem_of_mem_listTrim {c : Char} {l : List Char}
    (h : c ∈ listTrim l) : c ∈ l := by
  unfold listTrim at h
  rw [List.mem_reverse] at h
  have h2 := (List.dropWhile_sublist _).subset h
  rw [List.mem_reverse] at h2
  exact (List.dropWhile_sublist _).subset h2

/-- Modelled from the spec: the storage engine's phrase syntax requires
double quotes to come in pairs; a MATCH argument with an unpaired double
quote is rejected by the engine's query parser (the engine itself is an
external collaborator, so only this minimal well-formedness requirement of
its documented phrase syntax is modelled). -/
def quoteBalanced (s : String) : Bool :=
  (s.data.count '"') % 2 == 0

/-- C8 counterexample: the input `"a b` (an unpaired double quote before a
two-word phrase) sanitizes to itself — the quote is in the retained symbol
set and its presence suppresses phrase wrapping — so the sanitized query
carries an unpaired double quote to the engine; the claimed consequence
that a sanitized query never raises a parse error fails. -/
theorem c8_counterexample :
    sanitize_fts_query "\"a b" = "\"a b" ∧
    quoteBalanced (sanitize_fts_query "\"a b") = false := by decide

/-- C8 as amended: every character of the sanitized query is alphanumeric,
whitespace, or in the symbol set `-`, `_`, `*`, `"`; and when the cleaned
text contains a space but no double quote, the result is exactly the
trimmed cleaned text wrapped in double quotes.  (The engine-safety
consequence is dropped: double quotes survive sanitization, so unbalanced
phrase syntax can still reach the engine.) -/
theorem c8_amended_sanitize :
    (∀ (q : String) (c : Char),
      c ∈ (sanitize_fts_query q).data → ftsAllowedChar c = true) ∧
    (∀ q : String,
      (q.data.filter ftsAllowedChar).contains ' ' = true →
      (q.data.filter ftsAllowedChar).contains '"' = false →
      sanitize_fts_query q =
        String.mk ('"' :: listTrim (q.data.filter ftsAllowedChar) ++ ['"'])) := by
  constructor
  · intro q c hc
    unfold sanitize_fts_query at hc
    by_cases hcond : ((q.data.filter ftsAllowedChar).contains ' ' &&
        !(q.data.filter ftsAllowedChar).contains '"') = true
    · rw [if_pos hcond] at hc
      simp only [String.data] at hc
      rcases List.mem_cons.mp hc with h | h
      · subst h; decide
      · rcases List.mem_append.mp h with h2 | h2
        · exact List.of_mem_filter (mem_of_mem_listTrim h2)
        · have : c = '"' := by simpa using h2
          subst this; decide
    · rw [if_neg hcond] at hc
      simp only [String.data] at hc
      exact List.of_mem_filter (mem_of_mem_listTrim hc)
  · intro q h1 h2
    unfold sanitize_fts_query
    rw [if_pos (by rw [h1, h2]; rfl)]

/-- Witness for C8 (amended): a concrete two-word query is phrase-wrapped,
and a sampled character of a sanitized query is in the allowed set. -/
theorem c8_amended_sanitize_witness :
    sanitize_fts_query "dog park" = "\"dog park\"" ∧ ftsAllowedChar 'd' = true := by
  constructor
  · have h := c8_amended_sanitize.2 "dog park" (by decide) (by decide)
    exact h.trans (by decide)
  · exact c8_amended_sanitize.1 "dog park" 'd' (by decide)

/-- A well-formed create request relative to clock value `0`, for the
concrete validation scenarios. -/
def baseCreateRequest : ActivityCreateRequest :=
  ⟨1, .Health, "checkup", "Annual Checkup", none, 0, none, none, none, none, none⟩

/-- The base request with an activity date more than one year ahead of the
clock. -/
def futureDateRequest : ActivityCreateRequest :=
  { baseCreateRequest with activity_date := 366 * secondsPerDay }

/-- The base request with an activity date more than ten years before the
clock. -/
def pastDateRequest : ActivityCreateRequest :=
  { baseCreateRequest with activity_date := -(3651 * secondsPerDay) }

/-- The base request with a 256-byte title. -/
def longTitleRequest : ActivityCreateRequest :=
  { baseCreateRequest with title := String.mk (List.replicate 256 'a') }

/-- The base request with mood rating 6. -/
def badMoodRequest : ActivityCreateRequest :=
  { baseCreateRequest with mood_rating := some 6 }

/-- A 10100-character string payload body. -/
def bigPayloadBody : String := String.mk (List.replicate 10100 'a')

/-- The base request with a payload whose JSON text exceeds 10000 bytes. -/
def bigPayloadRequest : ActivityCreateRequest :=
  { baseCreateRequest with activity_data := some (.str bigPayloadBody) }

/-- Whether a validation result is an error of the `Validation` kind. -/
def resultErrIsValidation : Except ActivityError Unit → Bool
  | .error e => e.isValidationKind
  | .ok _ => false

/-- The serialized JSON form of an all-`a` string of length `n` is `n + 2`
bytes: the two quotes plus one byte per `a`. -/
theorem rustStrLen_jsonQuote_replicate (n : ℕ) :
    rustStrLen (jsonQuote (String.mk (List.replicate n 'a'))) = n + 2 := by
  show (List.map Char.utf8Size
    ('"' :: (List.map jsonEscapeChar (List.replicate n 'a')).flatten ++ ['"'])).sum
    = n + 2
  rw [List.map_replicate, show jsonEscapeChar 'a' = ['a'] from by decide]
  simp [show Char.utf8Size 'a' = 1 from by decide,
    show Char.utf8Size '"' = 1 from by decide]
  omega

/-- The serialized form of the big string payload is 10102 bytes. -/
theorem rustStrLen_bigPayload :
    rustStrLen (jsonToString (Json.str bigPayloadBody)) = 10102 := by
  show rustStrLen (jsonQuote (String.mk (List.replicate 10100 'a'))) = 10102
  rw [rustStrLen_jsonQuote_replicate]

deriving instance DecidableEq for Except

/-- C9 counterexample: an activity date outside the allowed window is
rejected with the `DateOutOfRange` kind — which carries only a message, no
field name — not with `Validation(field, message)` as claimed. -/
theorem c9_counterexample :
    validate_activity_create_request 0 futureDateRequest =
      .error (.DateOutOfRange
        "Activity date cannot be more than 1 year in the future") ∧
    resultErrIsValidation
      (validate_activity_create_request 0 futureDateRequest) = false := by
  constructor <;> decide

/-- The error kinds the validator is allowed to produce: `Validation` or
`DateOutOfRange`. -/
def errKindOk (e : ActivityError) : Prop :=
  e.isValidationKind = true ∨ e.isDateOutOfRangeKind = true

/-- Error-kind coverage of a conditional: if both branches only produce
errors satisfying `P`, so does the conditional. -/
theorem iteErrCover {P : ActivityError → Prop} {c : Prop} [Decidable c]
    {t f : Except ActivityError Unit}
    (ht : ∀ x, t = .error x → P x) (hf : ∀ x, f = .error x → P x) :
    ∀ x, (if c then t else f) = .error x → P x := by
  intro x hx
  by_cases hc : c
  · exact ht x (by rwa [if_pos hc] at hx)
  · exact hf x (by rwa [if_neg hc] at hx)

/-- Error-kind coverage of a literal error. -/
theorem errCoverLit {P : ActivityError → Prop} {e0 : ActivityError} (h0 : P e0) :
    ∀ x, (Except.error e0 : Except ActivityError Unit) = .error x → P x := by
  intro x hx
  injection hx with h2
  exact h2 ▸ h0

/-- Error-kind coverage of the success result. -/
theorem okCover {P : ActivityError → Prop} :
    ∀ x, (Except.ok () : Except ActivityError Unit) = .error x → P x :=
  fun x hx => Except.noConfusion hx

/-- C9 as amended: every validation failure is of the `Validation` kind or
the `DateOutOfRange` kind (no other error kind is produced); non-positive
ids, oversized text, out-of-range mood ratings, and oversized payloads are
rejected with `Validation` carrying the offending field's name, while
out-of-window activity dates are rejected with `DateOutOfRange`. -/
theorem c9_amended_validation_kinds :
    (∀ (now : ℤ) (r : ActivityCreateRequest) (e : ActivityError),
      validate_activity_create_request now r = .error e → errKindOk e) ∧
    (∀ (now : ℤ) (r : ActivityCreateRequest), r.pet_id ≤ 0 →
      validate_activity_create_request now r =
        .error (.Validation "pet_id" "Pet ID must be positive")) ∧
    validate_activity_create_request 0 longTitleRequest =
      .error (.Validation "title" "Title must be 255 characters or less") ∧
    validate_activity_create_request 0 badMoodRequest =
      .error (.Validation "mood_rating" "Mood rating must be between 1 and 5") ∧
    (∀ (now : ℤ) (r : ActivityCreateRequest) (d : Json),
      0 < r.pet_id → rustTrim r.title ≠ "" → rustStrLen r.title ≤ 255 →
      rustTrim r.subcategory ≠ "" → rustStrLen r.subcategory ≤ 100 →
      r.description = none →
      r.activity_date ≤ now + 365 * secondsPerDay →
      now - 3650 * secondsPerDay ≤ r.activity_date →
      r.cost = none → r.currency = none → r.location = none →
      r.mood_rating = none →
      r.activity_data = some d → 10000 < rustStrLen (jsonToString d) →
      validate_activity_create_request now r =
        .error (.Validation "activity_data"
          "Activity data must be less than 10KB")) ∧
    validate_activity_create_request 0 pastDateRequest =
      .error (.DateOutOfRange
        "Activity date cannot be more than 10 years in the past") := by
  refine ⟨?_, ?_, by decide, by decide, ?_, by decide⟩
  · intro now r
    unfold validate_activity_create_request
    show ∀ e, _ = Except.error e → errKindOk e
    refine iteErrCover (errCoverLit (Or.inl rfl)) ?_
    refine iteErrCover (errCoverLit (Or.inl rfl)) ?_
    refine iteErrCover (errCoverLit (Or.inl rfl)) ?_
    refine iteErrCover (errCoverLit (Or.inl rfl)) ?_
    refine iteErrCover (errCoverLit (Or.inl rfl)) ?_
    refine iteErrCover (errCoverLit (Or.inl rfl)) ?_
    refine iteErrCover (errCoverLit (Or.inr rfl)) ?_
    refine iteErrCover (errCoverLit (Or.inr rfl)) ?_
    refine iteErrCover (errCoverLit (Or.inl rfl)) ?_
    refine iteErrCover (errCoverLit (Or.inl rfl)) ?_
    refine iteErrCover (errCoverLit (Or.inl rfl)) ?_
    refine iteErrCover (errCoverLit (Or.inl rfl)) ?_
    refine iteErrCover (errCoverLit (Or.inl rfl)) ?_
    refine iteErrCover (errCoverLit (Or.inl rfl)) ?_
    refine iteErrCover (errCoverLit (Or.inl rfl)) ?_
    exact okCover
  · intro now r h
    unfold validate_activity_create_request
    exact if_pos h
  · intro now r d h1 h2 h3 h4 h5 h6 h7 h8 h9 h10 h11 h12 h13 h14
    unfold validate_activity_create_request
    exact (if_neg (by omega)).trans ((if_neg h2).trans ((if_neg (by omega)).trans
      ((if_neg h4).trans ((if_neg (by omega)).trans
      ((if_neg (by simp [optTooLong, h6])).trans ((if_neg (by omega)).trans
      ((if_neg (by omega)).trans ((if_neg (by simp [h9])).trans
      ((if_neg (by simp [h9])).trans
      ((if_neg (by simp [optTrimEmpty, h10])).trans
      ((if_neg (by simp [optTooLong, h10])).trans
      ((if_neg (by simp [optTooLong, h11])).trans
      ((if_neg (by simp [h12])).trans
      (if_pos (by simp [h13, h14])))))))))))))))

/-- Witness for C9 (amended): the concrete oversized payload (10102 bytes
of JSON) is rejected as `Validation("activity_data", …)`, and a zero pet
id as `Validation("pet_id", …)`. -/
theorem c9_amended_validation_kinds_witness :
    validate_activity_create_request 0 bigPayloadRequest =
      .error (.Validation "activity_data"
        "Activity data must be less than 10KB") ∧
    validate_activity_create_request 7 { baseCreateRequest with pet_id := 0 } =
      .error (.Validation "pet_id" "Pet ID must be positive") := by
  constructor
  · exact c9_amended_validation_kinds.2.2.2.2.1 0 bigPayloadRequest
      (.str bigPayloadBody) (by decide) (by decide) (by decide) (by decide)
      (by decide) rfl (by decide) (by decide) rfl rfl rfl rfl rfl
      (by rw [rustStrLen_bigPayload]; norm_num)
  · exact c9_amended_validation_kinds.2.1 7 _ (by decide)

/-- C10: the category, date-range, and cost filters supplied to
`get_activities` have no effect on the executed query — the result
(activities, total count, has-more) is identical to the same call with no
filters, because only the pet id, limit, and offset reach the final
query. -/
theorem c10_filters_have_no_effect (s : DbState) (pet_id : Option ℤ)
    (filters : Option ActivityFilters) (limit offset : Option ℤ) :
    get_activities s pet_id filters limit offset =
      get_activities s pet_id none limit offset := rfl

/-- A 5-activity table (all owned by pet 1) for the pagination scenario. -/
def paginationRow (i : ℤ) : ActivityRow :=
  ⟨i, 1, "health", "checkup", "Activity", none, 10 * i, none, none, none,
    none, none, 0, 0⟩

/-- Concrete state with one pet and 5 matching activity rows. -/
def fiveRowState : DbState :=
  ⟨[⟨1, "Momo", some 3⟩],
   [paginationRow 1, paginationRow 2, paginationRow 3, paginationRow 4,
    paginationRow 5],
   [], 6⟩

/-- C7 counterexample: on 5 matching rows, listing with `limit = 3` and no
offset returns 3 activities but `has_more = false` — the code computes
`has_more` only when the caller supplies an offset — contradicting the
claimed `has_more = true`.  (The 1000 cap is likewise absent from
`get_activities`; it lives in the FTS search path.) -/
theorem c7_counterexample :
    (get_activities fiveRowState (some 1) none (some 3) none).activities.length
      = 3 ∧
    (get_activities fiveRowState (some 1) none (some 3) none).total_count = 5 ∧
    (get_activities fiveRowState (some 1) none (some 3) none).has_more
      = false := by
  refine ⟨rfl, rfl, rfl⟩

/-- C7 as amended: on a table of 5 matching rows, listing with `limit = 3`
and an explicit `offset = 0` returns 3 activities with total count 5 and
`has_more = true`, and listing with `limit = 3, offset = 3` returns the
remaining 2 with `has_more = false`; when the caller supplies no offset,
`has_more` is always `false`; and the 1000 cap on the limit belongs to the
FTS search path (`fts_search_activities`), whose effective limit never
exceeds 1000 — `get_activities` itself applies a default of 50 and no
cap. -/
theorem c7_amended_pagination (s : DbState) (pid : ℤ)
    (fl : Option ActivityFilters)
    (h : (s.activities.filter (fun a => a.pet_id == pid)).length = 5) :
    (get_activities s (some pid) fl (some 3) (some 0)).activities.length = 3 ∧
    (get_activities s (some pid) fl (some 3) (some 0)).total_count = 5 ∧
    (get_activities s (some pid) fl (some 3) (some 0)).has_more = true ∧
    (get_activities s (some pid) fl (some 3) (some 3)).activities.length = 2 ∧
    (get_activities s (some pid) fl (some 3) (some 3)).has_more = false ∧
    (∀ limit : Option ℤ, (get_activities s (some pid) fl limit none).has_more
      = false) ∧
    (∀ limit : Option ℤ, ftsSearchEffectiveLimit limit ≤ 1000) := by
  have hs : (sortByDateDesc (s.activities.filter (fun a => a.pet_id == pid))).length
      = 5 := by rw [length_sortByDateDesc, h]
  have hne : sortByDateDesc (s.activities.filter (fun a => a.pet_id == pid)) ≠ []
      := by
    intro e
    rw [e] at hs
    simp at hs
  refine ⟨?_, ?_, ?_, ?_, ?_, ?_, ?_⟩
  · simp [get_activities, List.length_take, List.length_drop, hs]
  · simp [get_activities, List.length_take, List.length_drop, hs, h, hne]
  · simp [get_activities, List.length_take, List.length_drop, hs, h, hne]
  · simp [get_activities, List.length_take, List.length_drop, hs]
  · simp [get_activities, List.length_take, List.length_drop, hs, h, hne]
  · intro limit
    simp [get_activities]
  · intro limit
    unfold ftsSearchEffectiveLimit
    exact min_le_right _ _

/-- Witness for C7 (amended) on the concrete 5-row table. -/
theorem c7_amended_pagination_witness :
    (get_activities fiveRowState (some 1) none (some 3) (some 0)).activities.length
      = 3 ∧
    (get_activities fiveRowState (some 1) none (some 3) (some 0)).has_more
      = true ∧
    (get_activities fiveRowState (some 1) none (some 3) (some 3)).activities.length
      = 2 ∧
    (get_activities fiveRowState (some 1) none (some 3) (some 3)).has_more
      = false := by
  have hcount : (fiveRowState.activities.filter
      (fun a => a.pet_id == (1 : ℤ))).length = 5 := by decide
  have h := c7_amended_pagination fiveRowState 1 none hcount
  exact ⟨h.1, h.2.2.1, h.2.2.2.1, h.2.2.2.2.1⟩

/-- The spec's end-to-end weight payload:
`{"weight": {"value": 5.2, "unit": "kg"}}`. -/
def weightPayloadDoc : Json :=
  .obj [("weight", .obj [("value", .num 5.2), ("unit", .str "kg")])]

/-- The spec's end-to-end create request: pet 1, category Growth, the
weight payload. -/
def weightCreateRequest : ActivityCreateRequest :=
  ⟨1, .Growth, "weight", "Weight check", none, 0, some weightPayloadDoc,
    none, none, none, none⟩

/-- Initial state for the end-to-end scenario: pet 1 exists with stored
weight 3 kg, no activities. -/
def weightScenarioState : DbState := ⟨[⟨1, "Momo", some 3⟩], [], [], 1⟩

/-- C1 (code behavior at the failing input): the create path — the
`create_activity` command over `PetDatabase::create_activity` — never
touches the pets table at all: no branch of it updates `weight_kg` and no
transaction spans an activity insert and a pet update.  Concretely, for
the spec's end-to-end scenario the payload implies a weight update to
5.2 kg (`should_update_pet_profile` and `extract_weight_kg` say so, but
nothing calls them on this path), yet after a successful create the
activity row is present while pet 1 still weighs 3 kg. -/
theorem c1_create_never_updates_pet_weight :
    (∀ (s : DbState) (now : ℤ) (r : ActivityCreateRequest),
      ((create_activity_command s now r).1).pets = s.pets) ∧
    (ActivityData.from_legacy_json weightPayloadDoc).should_update_pet_profile
      = true ∧
    (ActivityData.from_legacy_json weightPayloadDoc).extract_weight_kg
      = some 5.2 ∧
    ((create_activity_command weightScenarioState 0 weightCreateRequest).1).activities.length = 1 ∧
    ((create_activity_command weightScenarioState 0 weightCreateRequest).2).isOk
      = true ∧
    petWeightKg ((create_activity_command weightScenarioState 0 weightCreateRequest).1) 1
      = some 3 ∧
    (5.2 : ℚ) ≠ 3 := by
  refine ⟨?_, rfl, ?_, rfl, rfl, rfl, by norm_num⟩
  · intro s now r
    unfold create_activity_command PetDatabase.create_activity
    cases s.pets.find? (fun p => p.id == r.pet_id) <;> rfl
  · show some (convert_weight_to_kg 5.2 "kg") = some 5.2
    norm_num [convert_weight_to_kg,
      show rustToLowercase "kg" = "kg" from by decide]

/-- Witness for C1's quantified part at the concrete scenario: the pets
table is unchanged by the create. -/
theorem c1_create_never_updates_pet_weight_witness :
    ((create_activity_command weightScenarioState 0 weightCreateRequest).1).pets
      = weightScenarioState.pets :=
  c1_create_never_updates_pet_weight.1 weightScenarioState 0 weightCreateRequest

/-- After the repair rewrite — keep exactly the index rows whose rowid is
a live activity id, then append rows derived from the activities absent
from the kept index — the state satisfies all three integrity conditions,
provided ids are unique on both sides (they are table keys). -/
theorem repairedStateConsistent (s : DbState)
    (hA : (s.activities.map ActivityRow.id).Nodup)
    (hF : (s.activities_fts.map FtsRow.rowid).Nodup) :
    ∀ s' : DbState, s'.activities = s.activities →
    s'.activities_fts =
      (s.activities_fts.filter
        (fun f => s.activities.any (fun a => a.id == f.rowid))) ++
      (s.activities.filter (fun a =>
        !(s.activities_fts.filter
          (fun f => s.activities.any (fun a => a.id == f.rowid))).any
            (fun f => f.rowid == a.id))).map activityToFtsRow →
    (s'.activities.length = s'.activities_fts.length ∧
     ftsOrphanCount s' = 0 ∧ ftsMissingCount s' = 0) := by
  intro s' hact hfts
  set K := s.activities_fts.filter
    (fun f => s.activities.any (fun a => a.id == f.rowid)) with hK
  set M := s.activities.filter (fun a =>
    !K.any (fun f => f.rowid == a.id)) with hM
  have memK : ∀ f ∈ K, s.activities.any (fun a => a.id == f.rowid) = true :=
    fun f hf => (List.mem_filter.mp hf).2
  have memM : ∀ a ∈ M, a ∈ s.activities ∧
      K.any (fun f => f.rowid == a.id) = false := by
    intro a ha
    have := List.mem_filter.mp ha
    exact ⟨this.1, by simpa using this.2⟩
  have horph : ftsOrphanCount s' = 0 := by
    unfold ftsOrphanCount
    rw [hact, hfts, List.length_eq_zero, List.filter_eq_nil_iff]
    intro f hf
    rcases List.mem_append.mp hf with hf1 | hf1
    · simp [memK f hf1]
    · rcases List.mem_map.mp hf1 with ⟨a, haM, rfl⟩
      have haA := (memM a haM).1
      simp only [Bool.not_eq_true', Bool.not_eq_false]
      rw [List.any_eq_true]
      exact ⟨a, haA, by simp [activityToFtsRow]⟩
  have hmiss : ftsMissingCount s' = 0 := by
    unfold ftsMissingCount
    rw [hact, hfts, List.length_eq_zero, List.filter_eq_nil_iff]
    intro a ha
    simp only [Bool.not_eq_true', Bool.not_eq_false]
    rw [List.any_eq_true]
    by_cases hk : K.any (fun f => f.rowid == a.id) = true
    · rcases List.any_eq_true.mp hk with ⟨f, hfK, hfid⟩
      exact ⟨f, List.mem_append_left _ hfK, hfid⟩
    · have haM : a ∈ M := by
        rw [hM]
        exact List.mem_filter.mpr ⟨ha, by simp [hk]⟩
      exact ⟨activityToFtsRow a,
        List.mem_append_right _ (List.mem_map_of_mem _ haM),
        by simp [activityToFtsRow]⟩
  refine ⟨?_, horph, hmiss⟩
  have hKsub : (K.map FtsRow.rowid).Sublist (s.activities_fts.map FtsRow.rowid) :=
    (List.filter_sublist _).map _
  have hKnd : (K.map FtsRow.rowid).Nodup := hKsub.nodup hF
  have hMsub : (M.map ActivityRow.id).Sublist (s.activities.map ActivityRow.id) :=
    (List.filter_sublist _).map _
  have hMnd : (M.map ActivityRow.id).Nodup := hMsub.nodup hA
  have hdisj : ∀ x ∈ K.map FtsRow.rowid, x ∉ M.map ActivityRow.id := by
    intro x hxK hxM
    rcases List.mem_map.mp hxM with ⟨a, haM, rfl⟩
    have hfalse := (memM a haM).2
    rcases List.mem_map.mp hxK with ⟨f, hfK, hfid⟩
    have : K.any (fun g => g.rowid == a.id) = true := by
      rw [List.any_eq_true]
      exact ⟨f, hfK, by simp [hfid]⟩
    rw [hfalse] at this
    exact Bool.noConfusion this
  have hnewIds : s'.activities_fts.map FtsRow.rowid =
      K.map FtsRow.rowid ++ M.map ActivityRow.id := by
    rw [hfts, List.map_append, List.map_map]
    rfl
  have hnewNd : (s'.activities_fts.map FtsRow.rowid).Nodup := by
    rw [hnewIds]
    exact List.Nodup.append hKnd hMnd hdisj
  have hsubset1 : ∀ x ∈ s'.activities_fts.map FtsRow.rowid,
      x ∈ s.activities.map ActivityRow.id := by
    intro x hx
    rw [hnewIds] at hx
    rcases List.mem_append.mp hx with hx1 | hx1
    · rcases List.mem_map.mp hx1 with ⟨f, hfK, rfl⟩
      rcases List.any_eq_true.mp (memK f hfK) with ⟨a, haA, hid⟩
      exact List.mem_map.mpr ⟨a, haA, by simpa using hid⟩
    · exact hMsub.subset hx1
  have hsubset2 : ∀ x ∈ s.activities.map ActivityRow.id,
      x ∈ s'.activities_fts.map FtsRow.rowid := by
    intro x hx
    rcases List.mem_map.mp hx with ⟨a, haA, rfl⟩
    have hm := hmiss
    unfold ftsMissingCount at hm
    rw [hact, List.length_eq_zero, List.filter_eq_nil_iff] at hm
    have h2 := hm a haA
    simp only [Bool.not_eq_true', Bool.not_eq_false] at h2
    rcases List.any_eq_true.mp h2 with ⟨f, hfmem, hfid⟩
    exact List.mem_map.mpr ⟨f, hfmem, by simpa using hfid⟩
  have hfin : (s'.activities_fts.map FtsRow.rowid).toFinset =
      (s.activities.map ActivityRow.id).toFinset := by
    ext x
    simp only [List.mem_toFinset]
    exact ⟨fun h => hsubset1 x h, fun h => hsubset2 x h⟩
  have hlen : s'.activities_fts.length = s.activities.length := by
    have e1 : s'.activities_fts.length =
        (s'.activities_fts.map FtsRow.rowid).length := by
      rw [List.length_map]
    have e2 : s.activities.length =
        (s.activities.map ActivityRow.id).length := by
      rw [List.length_map]
    rw [e1, e2, ← List.toFinset_card_of_nodup hnewNd,
      ← List.toFinset_card_of_nodup hA, hfin]
  rw [hact, hlen]

/-- C6: `verify()` is read-only (it returns the state unchanged — it runs
only SELECTs); it reports `is_valid = true` exactly when the activities
row count equals the index row count, no index row is orphaned, and no
activity is missing from the index; and after a successful `repair()` —
which removes all orphaned index rows and inserts entries for all missing
activities in one transaction — a subsequent `verify()` reports valid,
given the table-key uniqueness of ids on both sides. -/
theorem c6_verify_readonly_and_repair_restores_validity :
    (∀ s : DbState, (verify_fts_integrity s).1 = s) ∧
    (∀ s : DbState, ((verify_fts_integrity s).2.is_valid = true ↔
      (s.activities.length = s.activities_fts.length ∧
       ftsOrphanCount s = 0 ∧ ftsMissingCount s = 0))) ∧
    (∀ s : DbState,
      (s.activities.map ActivityRow.id).Nodup →
      (s.activities_fts.map FtsRow.rowid).Nodup →
      (verify_fts_integrity (repair_fts_index s).1).2.is_valid = true) := by
  have part2 : ∀ s : DbState, ((verify_fts_integrity s).2.is_valid = true ↔
      (s.activities.length = s.activities_fts.length ∧
       ftsOrphanCount s = 0 ∧ ftsMissingCount s = 0)) := by
    intro s
    unfold verify_fts_integrity
    dsimp only
    split_ifs with h1 h2 h3 <;> simp_all <;> omega
  refine ⟨fun s => rfl, part2, ?_⟩
  intro s hA hF
  by_cases hv : (verify_fts_integrity s).2.is_valid = true
  · have hrep : (repair_fts_index s).1 = s := by
      unfold repair_fts_index
      rw [if_pos hv]
    rw [hrep]
    exact hv
  · have hrep : (repair_fts_index s).1 =
        { s with activities_fts :=
          (s.activities_fts.filter
            (fun f => s.activities.any (fun a => a.id == f.rowid))) ++
          (s.activities.filter (fun a =>
            !(s.activities_fts.filter
              (fun f => s.activities.any (fun a => a.id == f.rowid))).any
                (fun f => f.rowid == a.id))).map activityToFtsRow } := by
      unfold repair_fts_index
      rw [if_neg hv]
    rw [hrep]
    exact (part2 _).mpr (repairedStateConsistent s hA hF _ rfl rfl)

/-- A drifted concrete state: one activity (id 1) missing from the index,
one orphaned index row (rowid 2). -/
def driftedState : DbState :=
  ⟨[⟨1, "Momo", some 3⟩],
   [⟨1, 1, "health", "checkup", "Visit", none, 0, none, none, none, none,
     none, 0, 0⟩],
   [⟨2, "Stale", none, none, none, none⟩], 3⟩

/-- Witness for C6 at the drifted concrete state: repair followed by
verify reports valid. -/
theorem c6_verify_readonly_and_repair_restores_validity_witness :
    (verify_fts_integrity (repair_fts_index driftedState).1).2.is_valid
      = true :=
  c6_verify_readonly_and_repair_restores_validity.2.2 driftedState
    (by decide) (by decide)
